import Mathlib

/-!
Verification development for the nnstorm-cloud repository.

The Python sources are shallowly embedded as pure Lean functions.
Remote provider state (Azure resources, key vaults, SDK client cache) is
passed explicitly as a state value; a raised Python exception is an
Except.error carrying the exception class and message; subprocess
execution is a function of the observed process behaviour (its output
chunks and exit code).  Logging calls are collected into a list of log
events where a claim depends on them.
-/

/-- A raised Python exception: the exception class together with its message. -/
inductive PyError where
  | azureError (msg : String)
  | runtimeError (msg : String)
  | cloudError
  | keyError (key : String)
deriving DecidableEq, Repr

/-! ## Substring containment: the Python in operator on strings -/

/-- The Python expression needle in hay for strings, on lists of characters:
some tail of hay starts with needle. -/
def hasSubstr (needle : List Char) : List Char → Bool
  | [] => needle.isEmpty
  | c :: rest => needle.isPrefixOf (c :: rest) || hasSubstr needle rest

/-- Python needle in hay for strings. -/
def pyIn (needle hay : String) : Bool :=
  hasSubstr needle.data hay.data

theorem isPrefixOf_of_append_isPrefixOf (a b l : List Char) :
    (a ++ b).isPrefixOf l = true → a.isPrefixOf l = true := by
  induction a generalizing l with
  | nil => intro _; simp [List.isPrefixOf]
  | cons x xs ih =>
    intro h
    cases l with
    | nil => simp [List.isPrefixOf] at h
    | cons y ys =>
      simp only [List.cons_append, List.isPrefixOf, Bool.and_eq_true] at h ⊢
      exact ⟨h.1, ih ys h.2⟩

theorem hasSubstr_append_left (a b : List Char) (l : List Char) :
    hasSubstr (a ++ b) l = true → hasSubstr a l = true := by
  induction l with
  | nil =>
    simp [hasSubstr, List.isEmpty_iff, List.append_eq_nil]
    intro h _; exact h
  | cons c rest ih =>
    simp only [hasSubstr, Bool.or_eq_true]
    rintro (h | h)
    · exact Or.inl (isPrefixOf_of_append_isPrefixOf a b _ h)
    · exact Or.inr (ih h)

theorem hasSubstr_self_append (a b : List Char) :
    hasSubstr a (a ++ b) = true := by
  cases a with
  | nil => cases b <;> simp [hasSubstr, List.isEmpty]
  | cons x xs =>
    simp only [List.cons_append, hasSubstr, Bool.or_eq_true]
    left
    have : ∀ (u v : List Char), u.isPrefixOf (u ++ v) = true := by
      intro u
      induction u with
      | nil => intro v; simp [List.isPrefixOf]
      | cons z zs ih => intro v; simp [List.isPrefixOf, ih]
    exact this (x :: xs) b

theorem pyIn_append_left (a b hay : String) :
    pyIn (a ++ b) hay = true → pyIn a hay = true := by
  intro h
  unfold pyIn at h ⊢
  rw [String.data_append] at h
  exact hasSubstr_append_left _ _ _ h

theorem pyIn_of_not_pyIn_left (a b hay : String) (h : pyIn a hay = false) :
    pyIn (a ++ b) hay = false := by
  cases hq : pyIn (a ++ b) hay
  · rfl
  · exact absurd (pyIn_append_left a b hay hq) (by simp [h])

/-- The Python str.strip method: remove whitespace from both ends. -/
def pyStrip (s : String) : String :=
  ⟨((s.data.dropWhile Char.isWhitespace).reverse.dropWhile Char.isWhitespace).reverse⟩

/-! ## Shell executor: run_shell_command (core/utils.py) -/

/-- One bytes value read from the subprocess, as the decoder sees it:
either it decodes as UTF-8 to a string, or decoding raises
UnicodeDecodeError (the raw byte values are kept for rendering). -/
inductive Chunk where
  | decodable (s : String)
  | undecodable (raw : List Nat)
deriving DecidableEq, Repr

/-- Length of the raw bytes value (the Python len(output) test). -/
def Chunk.size : Chunk → Nat
  | .decodable s => s.length
  | .undecodable raw => raw.length

/-- A stream value as returned by run_shell_command: the decoded text, or,
when decoding raised and the exception was swallowed, the original bytes. -/
inductive StreamVal where
  | text (s : String)
  | bytes (raw : List Nat)
deriving DecidableEq, Repr

/-- Render a stream value for a logging call. -/
def streamStr : StreamVal → String
  | .text s => s
  | .bytes raw => toString raw

/-- One logging call with its level and message. -/
inductive LogEvent where
  | debug (s : String)
  | info (s : String)
  | warning (s : String)
  | error (s : String)
deriving DecidableEq, Repr

def LogEvent.isWarning : LogEvent → Bool
  | .warning _ => true
  | _ => false

/-- Observed behaviour of one launched subprocess: the stdout lines the
poll loop reads before the process is seen terminated, the final stdout
and stderr blocks delivered by communicate, and the exit code. -/
structure Process where
  poll_chunks : List Chunk
  stdout_block : Chunk
  stderr_block : Chunk
  returncode : Int
deriving DecidableEq, Repr

deriving instance DecidableEq for Except

/-- The command argument of run_shell_command: a list of args or one string. -/
inductive CommandArg where
  | argList (l : List String)
  | strCmd (s : String)
deriving DecidableEq, Repr

/-- The poll loop of run_shell_command: for each line read, if it is
nonempty, try to decode it; on success append the stripped text and log it,
on UnicodeDecodeError log a warning and keep nothing. -/
def pollLoop (show_info : Bool) : List Chunk → List String × List LogEvent
  | [] => ([], [])
  | output :: rest =>
    let this : List String × List LogEvent :=
      match output with
      | .decodable s =>
        if 0 < s.length then
          ([pyStrip s], [if show_info then .info (pyStrip s) else .debug (pyStrip s)])
        else ([], [])
      | .undecodable raw =>
        if 0 < raw.length then
          ([], [.warning ("Could not decode " ++ toString raw ++ " with utf-8")])
        else ([], [])
    (this.1 ++ (pollLoop show_info rest).1, this.2 ++ (pollLoop show_info rest).2)

/-- Decoding of a communicate block: try text, on UnicodeDecodeError pass,
which leaves the raw bytes value in the variable. -/
def decodeBlock : Chunk → StreamVal
  | .decodable s => .text s
  | .undecodable raw => .bytes raw

/-- run_shell_command (core/utils.py): runs the command, optionally polls
stdout line by line, decodes the captured streams, and raises RuntimeError
when the exit code is nonzero.  Returns the log events and the result. -/
def run_shell_command (command_arg_list : CommandArg) (show_info shell poll : Bool)
    (p : Process) : List LogEvent × Except PyError (StreamVal × StreamVal) :=
  let cmd := match command_arg_list with
    | .strCmd s => s
    | .argList l => String.intercalate " " l
  let dbg : LogEvent := .debug ("Running shell script: " ++ cmd)
  let looped := if poll then pollLoop show_info p.poll_chunks else ([], [])
  let stdout0 := decodeBlock p.stdout_block
  let stderr0 := decodeBlock p.stderr_block
  let stdout1 := if poll then StreamVal.text (String.intercalate "\n" looped.1) else stdout0
  if p.returncode ≠ 0 then
    (dbg :: looped.2 ++ [.warning (streamStr stdout1), .error (streamStr stderr0)],
     .error (.runtimeError "Shellscript exited with non-0 exit code!"))
  else
    (dbg :: looped.2, .ok (stdout1, stderr0))

/-- Specification of the lines the poll loop captures: the stripped text of
every nonempty decodable chunk, in order. -/
def capturedLines : List Chunk → List String
  | [] => []
  | .decodable s :: rest =>
    if 0 < s.length then pyStrip s :: capturedLines rest else capturedLines rest
  | .undecodable _ :: rest => capturedLines rest

/-- Number of nonempty undecodable chunks in a chunk list. -/
def badChunkCount : List Chunk → Nat
  | [] => 0
  | .decodable _ :: rest => badChunkCount rest
  | .undecodable raw :: rest =>
    (if 0 < raw.length then 1 else 0) + badChunkCount rest

theorem pollLoop_fst (show_info : Bool) (chunks : List Chunk) :
    (pollLoop show_info chunks).1 = capturedLines chunks := by
  induction chunks with
  | nil => rfl
  | cons c rest ih =>
    cases c with
    | decodable s =>
      by_cases h : 0 < s.length <;>
        simp [pollLoop, capturedLines, h, ih]
    | undecodable raw =>
      by_cases h : 0 < raw.length <;>
        simp [pollLoop, capturedLines, h, ih]

theorem pollLoop_warning_count (show_info : Bool) (chunks : List Chunk) :
    ((pollLoop show_info chunks).2.filter LogEvent.isWarning).length
      = badChunkCount chunks := by
  induction chunks with
  | nil => rfl
  | cons c rest ih =>
    cases c with
    | decodable s =>
      by_cases h : 0 < s.length
      · cases show_info <;>
          simp [pollLoop, badChunkCount, h, ih, LogEvent.isWarning]
      · simp [pollLoop, badChunkCount, h, ih]
    | undecodable raw =>
      by_cases h : 0 < raw.length <;>
        simp [pollLoop, badChunkCount, h, ih, LogEvent.isWarning, Nat.add_comm]

/-- Every run_shell_command outcome is either a success or a RuntimeError
with the fixed nonzero-exit message. -/
theorem run_shell_result_cases (c : CommandArg) (si sh poll : Bool) (p : Process) :
    (∃ v, (run_shell_command c si sh poll p).2 = .ok v) ∨
      (run_shell_command c si sh poll p).2
        = .error (.runtimeError "Shellscript exited with non-0 exit code!") := by
  unfold run_shell_command
  by_cases h : p.returncode ≠ 0
  · right; simp [h]
  · left
    simp only [h, if_false, ite_false]
    exact ⟨_, rfl⟩

/-! ## Credential file loading (azure/api.py) -/

/-- The parsed credential JSON object: an association of keys to string
values, as loaded by _load_azure_credential. -/
def AuthJson := List (String × String)

namespace AzureApi

/-- _get_tenant_id (azure/api.py): the key tenantId when present,
otherwise the key tenant; a missing fallback key raises KeyError. -/
def _get_tenant_id (azure_auth : AuthJson) : Except PyError String :=
  match List.lookup "tenantId" azure_auth with
  | some v => .ok v
  | none =>
    match List.lookup "tenant" azure_auth with
    | some v => .ok v
    | none => .error (.keyError "tenant")

/-- _get_client_id (azure/api.py): clientId, falling back to appId. -/
def _get_client_id (azure_auth : AuthJson) : Except PyError String :=
  match List.lookup "clientId" azure_auth with
  | some v => .ok v
  | none =>
    match List.lookup "appId" azure_auth with
    | some v => .ok v
    | none => .error (.keyError "appId")

/-- _get_client_secret (azure/api.py): clientSecret, falling back to
password. -/
def _get_client_secret (azure_auth : AuthJson) : Except PyError String :=
  match List.lookup "clientSecret" azure_auth with
  | some v => .ok v
  | none =>
    match List.lookup "password" azure_auth with
    | some v => .ok v
    | none => .error (.keyError "password")

/-- _get_subscription_id (azure/api.py): the subscriptionId key, no
fallback. -/
def _get_subscription_id (azure_auth : AuthJson) : Except PyError String :=
  match List.lookup "subscriptionId" azure_auth with
  | some v => .ok v
  | none => .error (.keyError "subscriptionId")

end AzureApi

/-! ## SDK client cache (azure/api.py, AzureApi.client) -/

/-- A constructed SDK client object: its class and a construction index
that makes distinct constructions distinguishable (object identity). -/
structure SdkClient where
  cls : String
  ctor_index : Nat
deriving DecidableEq, Repr

/-- The mutable state behind AzureApi.client: the _clients dict keyed by
the class name, plus the number of constructions performed so far. -/
structure ApiClientState where
  clients : List (String × SdkClient)
  constructions : Nat
deriving DecidableEq, Repr

namespace AzureApi

/-- AzureApi.client (azure/api.py): if the class name is not in the
_clients dict, construct a client and store it; then return the dict
entry for the class name. -/
def client (st : ApiClientState) (class_name : String) :
    ApiClientState × Option SdkClient :=
  let st1 :=
    if (List.lookup class_name st.clients).isSome then st
    else { clients := (class_name, ⟨class_name, st.constructions⟩) :: st.clients,
           constructions := st.constructions + 1 }
  (st1, List.lookup class_name st1.clients)

end AzureApi

/-! ## Azure resource model (azure/manager.py) -/

/-- Python truthiness of an optional string (None and the empty string are
falsy). -/
def pyFalsyStrOpt : Option String → Bool
  | none => true
  | some s => s.isEmpty

/-- Python truthiness of an optional list (None and the empty list are
falsy). -/
def pyFalsyListOpt : Option (List String) → Bool
  | none => true
  | some l => l.isEmpty

/-- A network security group descriptor as created by the manager. -/
structure NetworkSecurityGroup where
  name : String
  location : String
deriving DecidableEq, Repr

/-- A virtual network descriptor as created by the manager. -/
structure VirtualNetwork where
  name : String
  location : String
  address_prefixes : List String
deriving DecidableEq, Repr

/-- A subnet descriptor as created by the manager. -/
structure Subnet where
  name : String
  address_prefix : String
  network_security_group : Option NetworkSecurityGroup
deriving DecidableEq, Repr

/-- A public IP descriptor as created by the manager. -/
structure PublicIPAddress where
  name : String
  location : String
  public_ip_allocation_method : String
  sku_name : String
  dns_domain_name_label : Option String
deriving DecidableEq, Repr

/-- A network interface descriptor as created by the manager. -/
structure NetworkInterface where
  name : String
  location : String
  ip_configuration_subnet : Subnet
  ip_configuration_primary : Bool
  network_security_group : Option NetworkSecurityGroup
  public_ip_address : Option PublicIPAddress
deriving DecidableEq, Repr

/-- The vm_params request body built by AzureManager.virtual_machine. -/
structure VmParams where
  location : String
  computer_name : String
  admin_username : Option String
  admin_password : Option String
  vm_size : String
  os_disk_size_gb : Nat
  image_reference : Option String
  network_interfaces : List NetworkInterface
  tags : List (String × String)
  plan : String
  priority_spot : Bool
  eviction_policy_deallocate : Bool
  billing_max_price : Option Rat
  ssh_public_keys : List (String × String)
deriving DecidableEq, Repr

/-- A virtual machine descriptor as stored by the provider. -/
structure VirtualMachine where
  name : String
  params : VmParams
deriving DecidableEq, Repr

/-- The remote Azure provider state seen by AzureManager: one name-keyed
map per resource type (subnets are keyed by virtual network and name),
plus counters of the create/update and delete requests submitted. -/
structure AzState where
  vms : List (String × VirtualMachine)
  nsgs : List (String × NetworkSecurityGroup)
  vnets : List (String × VirtualNetwork)
  subnets : List ((String × String) × Subnet)
  public_ips : List (String × PublicIPAddress)
  nics : List (String × NetworkInterface)
  createCalls : Nat
  vmDeleteCalls : Nat
deriving DecidableEq, Repr

/-- The AzureManager object fields the embedded methods read: the resource
group, async mode, the config dict entries the create paths use, and the
location of the resource group as the provider reports it. -/
structure AzureManagerState where
  rsg : String
  async_mode : Bool
  config_location : String
  config_nvidia_plan : String
  rsg_location : String
deriving DecidableEq, Repr

namespace AzureManager

/-- get_location (azure/manager.py): the location of the resource group as
the provider reports it. -/
def get_location (m : AzureManagerState) : String :=
  m.rsg_location

/-- The provider-side effect of virtual_machines.create_or_update. -/
def vms_create_or_update (st : AzState) (name : String) (p : VmParams) : AzState :=
  { st with vms := (name, ⟨name, p⟩) :: st.vms, createCalls := st.createCalls + 1 }

/-- AzureManager.virtual_machine (azure/manager.py): look the VM up; on a
hit return it unchanged; on a miss require a network interface, build
vm_params, submit create_or_update, wait and return the new lookup. -/
def virtual_machine (m : AzureManagerState) (st : AzState) (name : String)
    (network_interface : Option NetworkInterface) (image : Option String)
    (size : String) (user : Option String) (password : Option String)
    (spot_instance : Bool) (max_price_per_hour : Rat) (disk_size_gb : Nat)
    (ssh_pubkey : Option String) : AzState × Except PyError VirtualMachine :=
  match List.lookup name st.vms with
  | some vm => (st, .ok vm)
  | none =>
    match network_interface with
    | none =>
      (st, .error (.azureError "Cannot create VM without network interface, please supply it."))
    | some nic =>
      let vm_params : VmParams :=
        { location := m.config_location
          computer_name := name
          admin_username := user
          admin_password := password
          vm_size := size
          os_disk_size_gb := disk_size_gb
          image_reference := image
          network_interfaces := [nic]
          tags := [("persistent", "0"), ("development", "1")]
          plan := m.config_nvidia_plan
          priority_spot := spot_instance
          eviction_policy_deallocate := spot_instance
          billing_max_price := if spot_instance then some max_price_per_hour else none
          ssh_public_keys :=
            match ssh_pubkey with
            | some k =>
              [(("/home/" ++ (match user with | some u => u | none => "None"))
                  ++ "/.ssh/authorized_keys", k)]
            | none => [] }
      let st1 := vms_create_or_update st name vm_params
      match List.lookup name st1.vms with
      | some vm => (st1, .ok vm)
      | none => (st1, .error .cloudError)

/-- The provider-side effect of network_security_groups.create_or_update. -/
def nsgs_create_or_update (st : AzState) (name : String) (g : NetworkSecurityGroup) : AzState :=
  { st with nsgs := (name, g) :: st.nsgs, createCalls := st.createCalls + 1 }

/-- AzureManager.network_security_group (azure/manager.py). -/
def network_security_group (m : AzureManagerState) (st : AzState) (name : String) :
    AzState × Except PyError NetworkSecurityGroup :=
  match List.lookup name st.nsgs with
  | some nsg => (st, .ok nsg)
  | none =>
    let st1 := nsgs_create_or_update st name ⟨name, get_location m⟩
    match List.lookup name st1.nsgs with
    | some nsg => (st1, .ok nsg)
    | none => (st1, .error .cloudError)

/-- The provider-side effect of virtual_networks.create_or_update. -/
def vnets_create_or_update (st : AzState) (name : String) (v : VirtualNetwork) : AzState :=
  { st with vnets := (name, v) :: st.vnets, createCalls := st.createCalls + 1 }

/-- AzureManager.virtual_network (azure/manager.py): lookup, then require
nonempty address prefixes, then create and re-fetch. -/
def virtual_network (m : AzureManagerState) (st : AzState) (name : String)
    (address_prefixes : Option (List String)) :
    AzState × Except PyError VirtualNetwork :=
  match List.lookup name st.vnets with
  | some vnet => (st, .ok vnet)
  | none =>
    if pyFalsyListOpt address_prefixes then
      (st, .error (.azureError "Cannot create vnet without specified address prefix."))
    else
      let st1 := vnets_create_or_update st name
        ⟨name, get_location m, address_prefixes.getD []⟩
      match List.lookup name st1.vnets with
      | some vnet => (st1, .ok vnet)
      | none => (st1, .error .cloudError)

/-- The provider-side effect of subnets.create_or_update. -/
def subnets_create_or_update (st : AzState) (vnet_name name : String) (s : Subnet) : AzState :=
  { st with subnets := ((vnet_name, name), s) :: st.subnets, createCalls := st.createCalls + 1 }

/-- AzureManager.subnet (azure/manager.py): lookup by virtual network and
name, then require an address prefix, then create and re-fetch. -/
def subnet (m : AzureManagerState) (st : AzState) (name : String)
    (vnet : VirtualNetwork) ( address_prefix : Option String)
    (nsg : Option NetworkSecurityGroup) : AzState × Except PyError Subnet :=
  match List.lookup (vnet.name, name) st.subnets with
  | some sub => (st, .ok sub)
  | none =>
    if pyFalsyStrOpt address_prefix then
      (st, .error (.azureError "Cannot create vnet without specified address prefix."))
    else
      let st1 := subnets_create_or_update st vnet.name name
        ⟨name, address_prefix.getD "", nsg⟩
      match List.lookup (vnet.name, name) st1.subnets with
      | some sub => (st1, .ok sub)
      | none => (st1, .error .cloudError)

/-- The provider-side effect of public_ip_addresses.create_or_update. -/
def public_ips_create_or_update (st : AzState) (name : String) (ip : PublicIPAddress) : AzState :=
  { st with public_ips := (name, ip) :: st.public_ips, createCalls := st.createCalls + 1 }

/-- AzureManager.public_ip (azure/manager.py): default the DNS name to the
IP name, look the IP up, and on a miss create a static standard IP with
the DNS label. -/
def public_ip (m : AzureManagerState) (st : AzState) (name : String)
    (dns_name : Option String) : AzState × Except PyError PublicIPAddress :=
  let dns_name1 := if pyFalsyStrOpt dns_name then name else dns_name.getD ""
  match List.lookup name st.public_ips with
  | some ip => (st, .ok ip)
  | none =>
    let params : PublicIPAddress :=
      { name := name
        location := get_location m
        public_ip_allocation_method := "Static"
        sku_name := "Standard"
        dns_domain_name_label := if dns_name1.isEmpty then none else some dns_name1 }
    let st1 := public_ips_create_or_update st name params
    match List.lookup name st1.public_ips with
    | some ip => (st1, .ok ip)
    | none => (st1, .error .cloudError)

/-- The provider-side effect of network_interfaces.create_or_update. -/
def nics_create_or_update (st : AzState) (name : String) (n : NetworkInterface) : AzState :=
  { st with nics := (name, n) :: st.nics, createCalls := st.createCalls + 1 }

/-- AzureManager.network_interface (azure/manager.py): lookup, then build
the interface configuration and create and re-fetch. -/
def network_interface (m : AzureManagerState) (st : AzState) (name : String)
    (sub : Subnet) (nsg : Option NetworkSecurityGroup)
    (pub : Option PublicIPAddress) : AzState × Except PyError NetworkInterface :=
  match List.lookup name st.nics with
  | some nic => (st, .ok nic)
  | none =>
    let if_config : NetworkInterface :=
      { name := name
        location := m.config_location
        ip_configuration_subnet := sub
        ip_configuration_primary := true
        network_security_group := nsg
        public_ip_address := pub }
    let st1 := nics_create_or_update st name if_config
    match List.lookup name st1.nics with
    | some nic => (st1, .ok nic)
    | none => (st1, .error .cloudError)

end AzureManager

/-! ## AzureManager.delete (azure/manager.py) -/

/-- A resource object passed to AzureManager.delete: one of the resource
descriptor classes this wrapper produces. -/
inductive AzResource where
  | virtualMachine (vm : VirtualMachine)
  | networkSecurityGroup (nsg : NetworkSecurityGroup)
  | virtualNetwork (vnet : VirtualNetwork)
  | subnetRes (s : Subnet)
  | publicIPAddress (ip : PublicIPAddress)
  | networkInterface (nic : NetworkInterface)
deriving DecidableEq, Repr

/-- Outcome of a dispatched delete: whether the operation handle was
awaited to completion. -/
structure DeleteOutcome where
  waited : Bool
deriving DecidableEq, Repr

namespace AzureManager

/-- AzureManager.delete (azure/manager.py): only a VirtualMachine is
dispatched (delete then wait); every other class raises AzureError. -/
def delete (st : AzState) (resource : AzResource) :
    AzState × Except PyError DeleteOutcome :=
  match resource with
  | .virtualMachine vm =>
    ({ st with vms := st.vms.filter (fun q => !(q.1 == vm.name)),
               vmDeleteCalls := st.vmDeleteCalls + 1 },
     .ok ⟨true⟩)
  | _ => (st, .error (.azureError "Object's class is unknown to delete functionality."))

end AzureManager

/-! ## Key vault (azure/keyvault.py) -/

/-- One access policy entry in a vault configuration. -/
structure AccessPolicyEntry where
  tenant_id : String
  object_id : String
  permissions_keys : List String
  permissions_secrets : List String
deriving DecidableEq, Repr

/-- The properties part of the create_keyvault configuration body. -/
structure VaultProperties where
  sku_name : String
  sku_family : String
  tenant_id : String
  enable_soft_delete : Bool
  access_policies : List AccessPolicyEntry
  network_acls_subnet_ids : Option (List String)
deriving DecidableEq, Repr

/-- The configuration body submitted by create_keyvault. -/
structure VaultConfig where
  location : String
  properties : VaultProperties
deriving DecidableEq, Repr

/-- The key vault provider state: existing vaults by name, the names of
soft-deleted vaults, the names the availability check reports as taken,
and a counter of submitted create/update requests. -/
structure KvState where
  vaults : List (String × VaultConfig)
  deleted_vaults : List String
  unavailable_names : List String
  createCalls : Nat
deriving DecidableEq, Repr

namespace AzureKeyVault

/-- AzureKeyVault.check_name_available (azure/keyvault.py): list the
soft-deleted vaults and query name availability; the name is unusable if
it is among the deleted vaults or reported unavailable. -/
def check_name_available (st : KvState) (name : String) : Bool :=
  let names := st.deleted_vaults
  let name_available := !(st.unavailable_names.contains name)
  if names.contains name || !name_available then false else true

/-- AzureKeyVault.create_keyvault (azure/keyvault.py): fail when the name
check fails, otherwise build the configuration and submit
begin_create_or_update.  The post-creation secret round-trip probe only
blocks until the vault answers and is modelled as returning at once. -/
def create_keyvault (st : KvState) (name rsg location : String)
    (tenant_id object_id : String) (soft_delete : Bool)
    (subnet_ids : Option (List String)) : KvState × Except PyError Unit :=
  if !(check_name_available st name) then
    (st, .error (.runtimeError "Keyvault name is taken by deleted keyvault or is being used."))
  else
    let props : VaultProperties :=
      { sku_name := "standard"
        sku_family := "A"
        tenant_id := tenant_id
        enable_soft_delete := soft_delete
        access_policies :=
          [{ tenant_id := tenant_id
             object_id := object_id
             permissions_keys := ["all"]
             permissions_secrets := ["all", "purge"] }]
        network_acls_subnet_ids := none }
    let props1 :=
      if pyFalsyListOpt subnet_ids then props
      else { props with network_acls_subnet_ids := some (subnet_ids.getD []) }
    let configuration : VaultConfig := { location := location, properties := props1 }
    ({ st with vaults := (name, configuration) :: st.vaults,
               createCalls := st.createCalls + 1 },
     .ok ())

/-- The provider-side vaults.delete call: removing a missing vault raises;
deleting an existing vault soft-deletes it. -/
def vaults_delete (st : KvState) (rsg name : String) : KvState × Except PyError Unit :=
  match List.lookup name st.vaults with
  | none => (st, .error .cloudError)
  | some _ =>
    ({ st with vaults := st.vaults.filter (fun q => !(q.1 == name)),
               deleted_vaults := name :: st.deleted_vaults },
     .ok ())

/-- The provider-side vaults.begin_purge_deleted call: purging a name that
is not soft-deleted raises. -/
def begin_purge_deleted (st : KvState) (name location : String) :
    KvState × Except PyError Unit :=
  if st.deleted_vaults.contains name then
    ({ st with deleted_vaults := st.deleted_vaults.filter (fun q => !(q == name)) },
     .ok ())
  else (st, .error .cloudError)

/-- AzureKeyVault.delete_keyvault (azure/keyvault.py): delete, optionally
purge, and swallow any exception when fail_ok is set. -/
def delete_keyvault (st : KvState) (rsg location name : String)
    (purge fail_ok : Bool) : KvState × Except PyError Unit :=
  let r1 := vaults_delete st rsg name
  match r1.2 with
  | .error e => (r1.1, if fail_ok then .ok () else .error e)
  | .ok _ =>
    if purge then
      let r2 := begin_purge_deleted r1.1 name location
      match r2.2 with
      | .error e => (r2.1, if fail_ok then .ok () else .error e)
      | .ok _ => (r2.1, .ok ())
    else (r1.1, .ok ())

end AzureKeyVault

/-! ## Helm wrapper (kubernetes/helm.py) -/

namespace HelmAPI

/-- HelmAPI.uninstall (kubernetes/helm.py): run helm uninstall and, when
tolerate_error is set, swallow the RuntimeError a failed command raises. -/
def uninstall (namespc : String) (name : String) (tolerate_error : Bool)
    (p : Process) : Except PyError Unit :=
  match (run_shell_command
      (.argList (["helm", "uninstall", name] ++ ["--namespace", namespc]))
      false false true p).2 with
  | .ok _ => .ok ()
  | .error (.runtimeError m) =>
    if tolerate_error then .ok () else .error (.runtimeError m)
  | .error e => .error e

end HelmAPI

/-! ## Kubectl wrapper (kubernetes/kubectl.py) -/

namespace KubeControl

/-- KubeControl.kube_cmd (kubernetes/kubectl.py): run a kubectl command
with optional namespace and wait arguments, without polling. -/
def kube_cmd (namespc : String) (wait : Bool) (args : List String)
    (namespaced : Bool) (p : Process) :
    List LogEvent × Except PyError (StreamVal × StreamVal) :=
  let wait_args0 := if wait then ["--wait"] else []
  let namespace_args := if namespaced then ["--namespace", namespc] else []
  let wait_args :=
    if ["create", "get", "rollout", "label", "scale", "logs"].contains
        ((args.head?).getD "") then [] else wait_args0
  run_shell_command (.argList (["kubectl"] ++ args ++ namespace_args ++ wait_args))
    false false false p

/-- KubeControl.delete_namespace (kubernetes/kubectl.py): delete the
namespace; a RuntimeError is logged and, unless tolerated, re-raised as a
fresh RuntimeError. -/
def delete_namespace (namespc : String) (wait : Bool) (tolerate_error : Bool)
    (p : Process) : Except PyError Unit :=
  match (kube_cmd namespc wait ["delete", "namespace", namespc] false p).2 with
  | .ok _ => .ok ()
  | .error (.runtimeError _) =>
    if tolerate_error then .ok ()
    else .error (.runtimeError "Could not delete namespace")
  | .error e => .error e

/-- KubeControl.delete_resource (kubernetes/kubectl.py): delete a resource
of the given type and name; a RuntimeError is logged and, unless
tolerated, re-raised as a fresh RuntimeError. -/
def delete_resource (namespc : String) (wait : Bool)
    (resource_type resource_name : String) (namespaced : Bool)
    (tolerate_error : Bool) (p : Process) : Except PyError Unit :=
  match (kube_cmd namespc wait ["delete", resource_type, resource_name]
      namespaced p).2 with
  | .ok _ => .ok ()
  | .error (.runtimeError _) =>
    if tolerate_error then .ok ()
    else .error (.runtimeError "Could not delete resource")
  | .error e => .error e

end KubeControl

/-! ## SSH config entry management (azure/virtual_machine.py) -/

namespace AzureVM

/-- The loop body state of AzureVM.remove_ssh_config_entry, processing the
lines of the SSH config file.  A line containing Host entry starts the
removal; once started, a later line containing Host ends it; a line is
kept unless removal has started and not ended. -/
def removeSshAux (entry_name : String) (found done : Bool) :
    List String → List String
  | [] => []
  | line :: rest =>
    let hit := pyIn ("Host " ++ entry_name) line
    let found2 := if hit then true else found
    let done2 :=
      if hit then done
      else if found && pyIn "Host " line then true else done
    (if found2 && !done2 then ([] : List String) else [line])
      ++ removeSshAux entry_name found2 done2 rest

/-- AzureVM.remove_ssh_config_entry (azure/virtual_machine.py) as a
transformation of the list of physical lines of the SSH config file (each
line carries its trailing newline, as readlines returns them). -/
def remove_ssh_config_entry (entry_name : String) (config : List String) :
    List String :=
  removeSshAux entry_name false false config

/-- The physical lines of the entry text AzureVM.add_ssh_config_entry
appends, assuming the existing file content ends with a newline. -/
def entryLines (entry_name fqdn : String) : List String :=
  ["\n",
   ("Host " ++ entry_name) ++ "\n",
   "     StrictHostKeyChecking no\n",
   ("     HostName " ++ fqdn) ++ "\n",
   "     ForwardX11 yes\n",
   "     Port 20022\n"]

/-- AzureVM.add_ssh_config_entry (azure/virtual_machine.py): remove the
existing entry, then append the entry text to the file. -/
def add_ssh_config_entry (entry_name fqdn : String) (config : List String) :
    List String :=
  remove_ssh_config_entry entry_name config ++ entryLines entry_name fqdn

end AzureVM

/-! ## Claim C2 -/

/-- Claim C2 counterexample: a process that exits with code 1 and stderr
text boom makes run_shell_command raise, but the raised message is the
fixed string and does not embed the captured stderr text. -/
theorem C2_counterexample :
    (run_shell_command (.argList ["false"]) false false false
        ⟨[], .decodable "", .decodable "boom", 1⟩).2
      = .error (.runtimeError "Shellscript exited with non-0 exit code!")
    ∧ pyIn "boom" "Shellscript exited with non-0 exit code!" = false := by
  exact ⟨rfl, by decide⟩

/-- Claim C2 amended: on a nonzero exit code run_shell_command raises a
RuntimeError with the fixed message, and the captured stderr is written to
the error log channel rather than embedded in the raised message. -/
theorem C2_nonzero_exit_raises_fixed_message (c : CommandArg) (si sh poll : Bool)
    (p : Process) (h : p.returncode ≠ 0) :
    (run_shell_command c si sh poll p).2
      = .error (.runtimeError "Shellscript exited with non-0 exit code!")
    ∧ LogEvent.error (streamStr (decodeBlock p.stderr_block))
        ∈ (run_shell_command c si sh poll p).1 := by
  unfold run_shell_command
  simp [h]

/-- Claim C2 amended witness at a concrete failing process. -/
theorem C2_nonzero_exit_raises_fixed_message_witness :
    (run_shell_command (.argList ["helm", "uninstall", "x"]) false false true
        ⟨[], .decodable "", .decodable "release not found", 1⟩).2
      = .error (.runtimeError "Shellscript exited with non-0 exit code!")
    ∧ LogEvent.error "release not found"
        ∈ (run_shell_command (.argList ["helm", "uninstall", "x"]) false false true
            ⟨[], .decodable "", .decodable "release not found", 1⟩).1 :=
  C2_nonzero_exit_raises_fixed_message (.argList ["helm", "uninstall", "x"]) false false true
    ⟨[], .decodable "", .decodable "release not found", 1⟩ (by decide)

/-! ## Claim C3 -/

/-- Claim C3 counterexample: with one undecodable stdout chunk and an
undecodable stderr block, the call does not abort, but the stderr block is
returned as its raw bytes rather than being treated as empty, and only the
stdout chunk produces a warning. -/
theorem C3_counterexample :
    (run_shell_command (.argList ["x"]) false false true
        ⟨[.decodable "ok line", .undecodable [255]], .decodable "", .undecodable [200], 0⟩).2
      = .ok (.text "ok line", .bytes [200])
    ∧ StreamVal.bytes [200] ≠ StreamVal.text ""
    ∧ ((run_shell_command (.argList ["x"]) false false true
        ⟨[.decodable "ok line", .undecodable [255]], .decodable "", .undecodable [200], 0⟩).1.filter
          LogEvent.isWarning).length = 1 := by
  exact ⟨by decide, by decide, by decide⟩

/-- Claim C3 amended: a decoding failure is never fatal; in the polled
stdout loop an undecodable chunk contributes nothing to the captured
stdout and logs one warning while the other decodable lines are still
captured, and an undecodable final stderr block is returned as its raw
bytes without a warning. -/
theorem C3_decode_failure_nonfatal (c : CommandArg) (si sh : Bool) (p : Process)
    (h : p.returncode = 0) :
    (run_shell_command c si sh true p).2
      = .ok (.text (String.intercalate "\n" (capturedLines p.poll_chunks)),
             decodeBlock p.stderr_block)
    ∧ ((run_shell_command c si sh true p).1.filter LogEvent.isWarning).length
        = badChunkCount p.poll_chunks := by
  unfold run_shell_command
  simp [h, pollLoop_fst, pollLoop_warning_count, LogEvent.isWarning]

/-- Claim C3 amended witness at a concrete process with an undecodable
stdout chunk and an undecodable stderr block. -/
theorem C3_decode_failure_nonfatal_witness :
    (run_shell_command (.argList ["cat", "data.bin"]) false false true
        ⟨[.decodable "a", .undecodable [1, 2], .decodable "b"],
         .decodable "", .undecodable [7], 0⟩).2
      = .ok (.text (String.intercalate "\n"
              (capturedLines [.decodable "a", .undecodable [1, 2], .decodable "b"])),
             decodeBlock (.undecodable [7]))
    ∧ ((run_shell_command (.argList ["cat", "data.bin"]) false false true
        ⟨[.decodable "a", .undecodable [1, 2], .decodable "b"],
         .decodable "", .undecodable [7], 0⟩).1.filter LogEvent.isWarning).length
        = badChunkCount [.decodable "a", .undecodable [1, 2], .decodable "b"] :=
  C3_decode_failure_nonfatal (.argList ["cat", "data.bin"]) false false
    ⟨[.decodable "a", .undecodable [1, 2], .decodable "b"],
     .decodable "", .undecodable [7], 0⟩ rfl

/-! ## Claim C5 -/

/-- Claim C5: create_keyvault checks name availability before creating:
when the vault name is among the soft-deleted vaults, or the provider
reports the name unavailable, the call raises and the provider state is
returned unchanged, so no create/update request was submitted. -/
theorem C5_keyvault_name_check (st : KvState) (name rsg location t o : String)
    (soft_delete : Bool) (subnet_ids : Option (List String))
    (h : st.deleted_vaults.contains name = true
         ∨ st.unavailable_names.contains name = true) :
    AzureKeyVault.create_keyvault st name rsg location t o soft_delete subnet_ids
      = (st, .error (.runtimeError
          "Keyvault name is taken by deleted keyvault or is being used.")) := by
  have hc : AzureKeyVault.check_name_available st name = false := by
    unfold AzureKeyVault.check_name_available
    rcases h with h | h <;> simp at h <;> simp [h]
  simp [AzureKeyVault.create_keyvault, hc]

/-- Claim C5 witness: a vault name that is soft-deleted is refused with the
provider state unchanged. -/
theorem C5_keyvault_name_check_witness :
    AzureKeyVault.create_keyvault ⟨[], ["kv1"], [], 0⟩ "kv1" "rsg" "westeu"
        "tenant" "object" true none
      = (⟨[], ["kv1"], [], 0⟩, .error (.runtimeError
          "Keyvault name is taken by deleted keyvault or is being used.")) :=
  C5_keyvault_name_check ⟨[], ["kv1"], [], 0⟩ "kv1" "rsg" "westeu" "tenant"
    "object" true none (Or.inl (by decide))

/-- Every kube_cmd outcome is a success or the fixed RuntimeError of
run_shell_command. -/
theorem kube_cmd_result_cases (namespc : String) (wait : Bool)
    (args : List String) (namespaced : Bool) (p : Process) :
    (∃ v, (KubeControl.kube_cmd namespc wait args namespaced p).2 = .ok v) ∨
      (KubeControl.kube_cmd namespc wait args namespaced p).2
        = .error (.runtimeError "Shellscript exited with non-0 exit code!") := by
  unfold KubeControl.kube_cmd
  exact run_shell_result_cases _ _ _ _ _

/-! ## Claim C6 -/

/-- Claim C6: every deletion operation with its tolerant flag set returns
successfully whatever the underlying delete does: Helm uninstall with
tolerate_error, kubectl namespace and resource deletion with
tolerate_error, and key vault deletion with fail_ok. -/
theorem C6_tolerant_deletion :
    (∀ (namespc name : String) (p : Process),
        HelmAPI.uninstall namespc name true p = .ok ())
  ∧ (∀ (namespc : String) (wait : Bool) (p : Process),
        KubeControl.delete_namespace namespc wait true p = .ok ())
  ∧ (∀ (namespc : String) (wait : Bool) (resource_type resource_name : String)
        (namespaced : Bool) (p : Process),
        KubeControl.delete_resource namespc wait resource_type resource_name
          namespaced true p = .ok ())
  ∧ (∀ (st : KvState) (rsg location name : String) (purge : Bool),
        (AzureKeyVault.delete_keyvault st rsg location name purge true).2 = .ok ()) := by
  refine ⟨?_, ?_, ?_, ?_⟩
  · intro namespc name p
    unfold HelmAPI.uninstall
    rcases run_shell_result_cases
        (.argList (["helm", "uninstall", name] ++ ["--namespace", namespc]))
        false false true p with ⟨v, hv⟩ | hv <;> rw [hv]
    rfl
  · intro namespc wait p
    unfold KubeControl.delete_namespace
    rcases kube_cmd_result_cases namespc wait ["delete", "namespace", namespc]
        false p with ⟨v, hv⟩ | hv <;> rw [hv]
    rfl
  · intro namespc wait resource_type resource_name namespaced p
    unfold KubeControl.delete_resource
    rcases kube_cmd_result_cases namespc wait
        ["delete", resource_type, resource_name] namespaced p with ⟨v, hv⟩ | hv <;>
      rw [hv]
    rfl
  · intro st rsg location name purge
    unfold AzureKeyVault.delete_keyvault
    rcases h1 : (AzureKeyVault.vaults_delete st rsg name).2 with e | u
    · simp [h1]
    · cases purge <;> simp only [h1, Bool.false_eq_true, if_false, if_true]
      rcases h2 : (AzureKeyVault.begin_purge_deleted
          (AzureKeyVault.vaults_delete st rsg name).1 name location).2 with e2 | u2 <;>
        simp [h2]

/-! ## Claim C7 -/

/-- Claim C7: the credential lookups read tenantId, clientId and
clientSecret, each falling back to the historical key names tenant, appId
and password when absent, so a file holding only the fallback names
resolves successfully. -/
theorem C7_credential_fallback :
    (∀ (auth : AuthJson) (v : String),
        List.lookup "tenantId" auth = some v → AzureApi._get_tenant_id auth = .ok v)
  ∧ (∀ (auth : AuthJson) (v : String),
        List.lookup "tenantId" auth = none → List.lookup "tenant" auth = some v →
        AzureApi._get_tenant_id auth = .ok v)
  ∧ (∀ (auth : AuthJson) (v : String),
        List.lookup "clientId" auth = some v → AzureApi._get_client_id auth = .ok v)
  ∧ (∀ (auth : AuthJson) (v : String),
        List.lookup "clientId" auth = none → List.lookup "appId" auth = some v →
        AzureApi._get_client_id auth = .ok v)
  ∧ (∀ (auth : AuthJson) (v : String),
        List.lookup "clientSecret" auth = some v → AzureApi._get_client_secret auth = .ok v)
  ∧ (∀ (auth : AuthJson) (v : String),
        List.lookup "clientSecret" auth = none → List.lookup "password" auth = some v →
        AzureApi._get_client_secret auth = .ok v)
  ∧ (∀ (x y z w : String),
        AzureApi._get_tenant_id
            [("clientId", x), ("clientSecret", y), ("tenant", z), ("subscriptionId", w)]
          = .ok z
      ∧ AzureApi._get_client_id
            [("clientId", x), ("clientSecret", y), ("tenant", z), ("subscriptionId", w)]
          = .ok x
      ∧ AzureApi._get_client_secret
            [("clientId", x), ("clientSecret", y), ("tenant", z), ("subscriptionId", w)]
          = .ok y
      ∧ AzureApi._get_subscription_id
            [("clientId", x), ("clientSecret", y), ("tenant", z), ("subscriptionId", w)]
          = .ok w) := by
  refine ⟨?_, ?_, ?_, ?_, ?_, ?_, ?_⟩
  · intro auth v h; unfold AzureApi._get_tenant_id; rw [h]
  · intro auth v h1 h2; unfold AzureApi._get_tenant_id; rw [h1, h2]
  · intro auth v h; unfold AzureApi._get_client_id; rw [h]
  · intro auth v h1 h2; unfold AzureApi._get_client_id; rw [h1, h2]
  · intro auth v h; unfold AzureApi._get_client_secret; rw [h]
  · intro auth v h1 h2; unfold AzureApi._get_client_secret; rw [h1, h2]
  · intro x y z w; exact ⟨rfl, rfl, rfl, rfl⟩

/-- Claim C7 witness at the concrete credential file of the scenario. -/
theorem C7_credential_fallback_witness :
    AzureApi._get_tenant_id
        [("clientId", "x"), ("clientSecret", "y"), ("tenant", "z"), ("subscriptionId", "w")]
      = .ok "z"
    ∧ AzureApi._get_client_id
        [("clientId", "x"), ("clientSecret", "y"), ("tenant", "z"), ("subscriptionId", "w")]
      = .ok "x"
    ∧ AzureApi._get_client_secret
        [("clientId", "x"), ("clientSecret", "y"), ("tenant", "z"), ("subscriptionId", "w")]
      = .ok "y" := by
  obtain ⟨h1, h2, h3, h4, h5, h6, h7⟩ := C7_credential_fallback
  refine ⟨?_, ?_, ?_⟩
  · exact h2 [("clientId", "x"), ("clientSecret", "y"), ("tenant", "z"), ("subscriptionId", "w")]
      "z" (by decide) (by decide)
  · exact h3 [("clientId", "x"), ("clientSecret", "y"), ("tenant", "z"), ("subscriptionId", "w")]
      "x" (by decide)
  · exact h5 [("clientId", "x"), ("clientSecret", "y"), ("tenant", "z"), ("subscriptionId", "w")]
      "y" (by decide)

/-! ## Claim C8 -/

/-- Claim C8: the client cache is keyed by the class name; a cached class
is returned as the identical stored instance with no new construction, a
missing class is constructed exactly once and stored, and a repeated call
returns the same instance with the state unchanged. -/
theorem C8_client_cache (st : ApiClientState) (cls : String) :
    (∀ c, List.lookup cls st.clients = some c → AzureApi.client st cls = (st, some c))
  ∧ (List.lookup cls st.clients = none →
        (AzureApi.client st cls).1.constructions = st.constructions + 1
      ∧ (AzureApi.client st cls).2 = some ⟨cls, st.constructions⟩)
  ∧ AzureApi.client (AzureApi.client st cls).1 cls
      = ((AzureApi.client st cls).1, (AzureApi.client st cls).2) := by
  refine ⟨?_, ?_, ?_⟩
  · intro c h
    unfold AzureApi.client
    simp [h]
  · intro h
    unfold AzureApi.client
    simp [h, List.lookup]
  · cases h : List.lookup cls st.clients with
    | some c => unfold AzureApi.client; simp [h]
    | none => unfold AzureApi.client; simp [h, List.lookup]

/-- Claim C8 witness: a concrete cache hit and a concrete first call. -/
theorem C8_client_cache_witness :
    AzureApi.client ⟨[("ComputeManagementClient", ⟨"ComputeManagementClient", 0⟩)], 1⟩
        "ComputeManagementClient"
      = (⟨[("ComputeManagementClient", ⟨"ComputeManagementClient", 0⟩)], 1⟩,
         some ⟨"ComputeManagementClient", 0⟩)
    ∧ (AzureApi.client ⟨[], 0⟩ "NetworkManagementClient").1.constructions = 0 + 1
    ∧ (AzureApi.client ⟨[], 0⟩ "NetworkManagementClient").2
        = some ⟨"NetworkManagementClient", 0⟩ := by
  obtain ⟨h1, h2, _⟩ :=
    C8_client_cache ⟨[("ComputeManagementClient", ⟨"ComputeManagementClient", 0⟩)], 1⟩
      "ComputeManagementClient"
  obtain ⟨g1, g2, _⟩ := C8_client_cache ⟨[], 0⟩ "NetworkManagementClient"
  exact ⟨h1 ⟨"ComputeManagementClient", 0⟩ (by decide),
         (g2 (by decide)).1, (g2 (by decide)).2⟩

/-! ## Claim C9 -/

/-- Claim C9: AzureManager.delete dispatches only the VirtualMachine
variant, submitting the provider delete and waiting for it, and raises
AzureError for every other resource class. -/
theorem C9_delete_dispatch (st : AzState) :
    (∀ vm, AzureManager.delete st (.virtualMachine vm)
        = ({ st with vms := st.vms.filter (fun q => !(q.1 == vm.name)),
                     vmDeleteCalls := st.vmDeleteCalls + 1 },
           .ok ⟨true⟩))
  ∧ (∀ x, AzureManager.delete st (.networkSecurityGroup x)
        = (st, .error (.azureError "Object's class is unknown to delete functionality.")))
  ∧ (∀ x, AzureManager.delete st (.virtualNetwork x)
        = (st, .error (.azureError "Object's class is unknown to delete functionality.")))
  ∧ (∀ x, AzureManager.delete st (.subnetRes x)
        = (st, .error (.azureError "Object's class is unknown to delete functionality.")))
  ∧ (∀ x, AzureManager.delete st (.publicIPAddress x)
        = (st, .error (.azureError "Object's class is unknown to delete functionality.")))
  ∧ (∀ x, AzureManager.delete st (.networkInterface x)
        = (st, .error (.azureError "Object's class is unknown to delete functionality."))) :=
  ⟨fun _ => rfl, fun _ => rfl, fun _ => rfl, fun _ => rfl, fun _ => rfl, fun _ => rfl⟩

/-! ## Claim C4 -/

/-- Claim C4: when the lookup misses and the required desired-state field
is absent, each get-or-create method raises an AzureError naming the
missing field, with the provider state returned unchanged (no
create/update request submitted). -/
theorem C4_missing_required_field (m : AzureManagerState) (st : AzState) :
    (∀ (name : String) (image : Option String) (size : String)
        (user password : Option String) (spot : Bool) (mp : Rat) (dg : Nat)
        (ssh : Option String),
        List.lookup name st.vms = none →
        AzureManager.virtual_machine m st name none image size user password spot mp dg ssh
          = (st, .error (.azureError
              "Cannot create VM without network interface, please supply it.")))
  ∧ (∀ (name : String) (aps : Option (List String)),
        List.lookup name st.vnets = none → pyFalsyListOpt aps = true →
        AzureManager.virtual_network m st name aps
          = (st, .error (.azureError
              "Cannot create vnet without specified address prefix.")))
  ∧ (∀ (name : String) (vnet : VirtualNetwork) (ap : Option String)
        (nsg : Option NetworkSecurityGroup),
        List.lookup (vnet.name, name) st.subnets = none → pyFalsyStrOpt ap = true →
        AzureManager.subnet m st name vnet ap nsg
          = (st, .error (.azureError
              "Cannot create vnet without specified address prefix.")))
  ∧ pyIn "network interface"
      "Cannot create VM without network interface, please supply it." = true
  ∧ pyIn "address prefix"
      "Cannot create vnet without specified address prefix." = true := by
  refine ⟨?_, ?_, ?_, by decide, by decide⟩
  · intro name image size user password spot mp dg ssh h
    unfold AzureManager.virtual_machine
    rw [h]
  · intro name aps h hf
    unfold AzureManager.virtual_network
    rw [h, hf]
    rfl
  · intro name vnet ap nsg h hf
    unfold AzureManager.subnet
    rw [h, hf]
    rfl

/-- Claim C4 witness: the three failing calls at the empty provider
state. -/
theorem C4_missing_required_field_witness :
    AzureManager.virtual_machine ⟨"rsg", false, "westeu", "plan", "westeu"⟩
        ⟨[], [], [], [], [], [], 0, 0⟩ "vm1" none none "Standard_B2s" none none true 2 32 none
      = (⟨[], [], [], [], [], [], 0, 0⟩, .error (.azureError
          "Cannot create VM without network interface, please supply it."))
    ∧ AzureManager.virtual_network ⟨"rsg", false, "westeu", "plan", "westeu"⟩
        ⟨[], [], [], [], [], [], 0, 0⟩ "vnet1" none
      = (⟨[], [], [], [], [], [], 0, 0⟩, .error (.azureError
          "Cannot create vnet without specified address prefix."))
    ∧ AzureManager.subnet ⟨"rsg", false, "westeu", "plan", "westeu"⟩
        ⟨[], [], [], [], [], [], 0, 0⟩ "sub1" ⟨"vnet1", "westeu", ["10.0.0.0/16"]⟩ none none
      = (⟨[], [], [], [], [], [], 0, 0⟩, .error (.azureError
          "Cannot create vnet without specified address prefix.")) := by
  obtain ⟨h1, h2, h3, _, _⟩ :=
    C4_missing_required_field ⟨"rsg", false, "westeu", "plan", "westeu"⟩
      ⟨[], [], [], [], [], [], 0, 0⟩
  exact ⟨h1 "vm1" none "Standard_B2s" none none true 2 32 none rfl,
         h2 "vnet1" none rfl rfl,
         h3 "sub1" ⟨"vnet1", "westeu", ["10.0.0.0/16"]⟩ none none rfl rfl⟩

/-! ## Claim C1 helper lemmas -/

/-- virtual_machine on a lookup hit returns the found VM and leaves the
provider state untouched. -/
theorem virtual_machine_hit (m : AzureManagerState) (st : AzState) (name : String)
    (nic : Option NetworkInterface) (image : Option String) (size : String)
    (user password : Option String) (spot : Bool) (mp : Rat) (dg : Nat)
    (ssh : Option String) (r : VirtualMachine)
    (h : List.lookup name st.vms = some r) :
    AzureManager.virtual_machine m st name nic image size user password spot mp dg ssh
      = (st, .ok r) := by
  unfold AzureManager.virtual_machine
  rw [h]

/-- A successful virtual_machine call performs at most one create request
and a repeat of the call is a lookup hit returning the same VM. -/
theorem virtual_machine_twice (m : AzureManagerState) (st : AzState) (name : String)
    (nic : Option NetworkInterface) (image : Option String) (size : String)
    (user password : Option String) (spot : Bool) (mp : Rat) (dg : Nat)
    (ssh : Option String) (r : VirtualMachine)
    (h : (AzureManager.virtual_machine m st name nic image size user password
            spot mp dg ssh).2 = .ok r) :
    (AzureManager.virtual_machine m st name nic image size user password
        spot mp dg ssh).1.createCalls ≤ st.createCalls + 1
    ∧ AzureManager.virtual_machine m
        (AzureManager.virtual_machine m st name nic image size user password
          spot mp dg ssh).1 name nic image size user password spot mp dg ssh
      = ((AzureManager.virtual_machine m st name nic image size user password
            spot mp dg ssh).1, .ok r) := by
  cases hl : List.lookup name st.vms with
  | some v =>
    have e := virtual_machine_hit m st name nic image size user password spot mp dg ssh v hl
    rw [e] at h
    simp only [Except.ok.injEq] at h
    subst h
    rw [e]
    exact ⟨Nat.le_succ _, e⟩
  | none =>
    cases nic with
    | none =>
      exfalso
      have e : (AzureManager.virtual_machine m st name none image size user password
          spot mp dg ssh).2 = .error (.azureError
          "Cannot create VM without network interface, please supply it.") := by
        unfold AzureManager.virtual_machine
        rw [hl]
      rw [e] at h
      exact Except.noConfusion h
    | some n =>
      unfold AzureManager.virtual_machine at h ⊢
      rw [hl] at h ⊢
      simp only [AzureManager.vms_create_or_update, List.lookup, beq_self_eq_true] at h ⊢
      simp only [Except.ok.injEq] at h
      subst h
      exact ⟨Nat.le_refl _, rfl⟩

/-- network_security_group on a lookup hit returns the found group. -/
theorem network_security_group_hit (m : AzureManagerState) (st : AzState)
    (name : String) (r : NetworkSecurityGroup)
    (h : List.lookup name st.nsgs = some r) :
    AzureManager.network_security_group m st name = (st, .ok r) := by
  unfold AzureManager.network_security_group
  rw [h]

/-- A successful network_security_group call performs at most one create
request and a repeat of the call is a lookup hit returning the same group. -/
theorem network_security_group_twice (m : AzureManagerState) (st : AzState)
    (name : String) (r : NetworkSecurityGroup)
    (h : (AzureManager.network_security_group m st name).2 = .ok r) :
    (AzureManager.network_security_group m st name).1.createCalls ≤ st.createCalls + 1
    ∧ AzureManager.network_security_group m
        (AzureManager.network_security_group m st name).1 name
      = ((AzureManager.network_security_group m st name).1, .ok r) := by
  cases hl : List.lookup name st.nsgs with
  | some v =>
    have e := network_security_group_hit m st name v hl
    rw [e] at h
    simp only [Except.ok.injEq] at h
    subst h
    rw [e]
    exact ⟨Nat.le_succ _, e⟩
  | none =>
    unfold AzureManager.network_security_group at h ⊢
    rw [hl] at h ⊢
    simp only [AzureManager.nsgs_create_or_update, List.lookup, beq_self_eq_true] at h ⊢
    simp only [Except.ok.injEq] at h
    subst h
    exact ⟨Nat.le_refl _, rfl⟩

/-- virtual_network on a lookup hit returns the found network. -/
theorem virtual_network_hit (m : AzureManagerState) (st : AzState) (name : String)
    (aps : Option (List String)) (r : VirtualNetwork)
    (h : List.lookup name st.vnets = some r) :
    AzureManager.virtual_network m st name aps = (st, .ok r) := by
  unfold AzureManager.virtual_network
  rw [h]

/-- A successful virtual_network call performs at most one create request
and a repeat of the call is a lookup hit returning the same network. -/
theorem virtual_network_twice (m : AzureManagerState) (st : AzState) (name : String)
    (aps : Option (List String)) (r : VirtualNetwork)
    (h : (AzureManager.virtual_network m st name aps).2 = .ok r) :
    (AzureManager.virtual_network m st name aps).1.createCalls ≤ st.createCalls + 1
    ∧ AzureManager.virtual_network m (AzureManager.virtual_network m st name aps).1 name aps
      = ((AzureManager.virtual_network m st name aps).1, .ok r) := by
  cases hl : List.lookup name st.vnets with
  | some v =>
    have e := virtual_network_hit m st name aps v hl
    rw [e] at h
    simp only [Except.ok.injEq] at h
    subst h
    rw [e]
    exact ⟨Nat.le_succ _, e⟩
  | none =>
    cases hf : pyFalsyListOpt aps with
    | true =>
      exfalso
      unfold AzureManager.virtual_network at h
      rw [hl] at h
      simp [hf] at h
    | false =>
      unfold AzureManager.virtual_network at h ⊢
      rw [hl] at h ⊢
      simp only [hf, Bool.false_eq_true, if_false,
        AzureManager.vnets_create_or_update, List.lookup, beq_self_eq_true] at h ⊢
      simp only [Except.ok.injEq] at h
      subst h
      exact ⟨Nat.le_refl _, rfl⟩

/-- subnet on a lookup hit returns the found subnet. -/
theorem subnet_hit (m : AzureManagerState) (st : AzState) (name : String)
    (vnet : VirtualNetwork) (ap : Option String) (nsg : Option NetworkSecurityGroup)
    (r : Subnet) (h : List.lookup (vnet.name, name) st.subnets = some r) :
    AzureManager.subnet m st name vnet ap nsg = (st, .ok r) := by
  unfold AzureManager.subnet
  rw [h]

/-- A successful subnet call performs at most one create request and a
repeat of the call is a lookup hit returning the same subnet. -/
theorem subnet_twice (m : AzureManagerState) (st : AzState) (name : String)
    (vnet : VirtualNetwork) (ap : Option String) (nsg : Option NetworkSecurityGroup)
    (r : Subnet) (h : (AzureManager.subnet m st name vnet ap nsg).2 = .ok r) :
    (AzureManager.subnet m st name vnet ap nsg).1.createCalls ≤ st.createCalls + 1
    ∧ AzureManager.subnet m (AzureManager.subnet m st name vnet ap nsg).1 name vnet ap nsg
      = ((AzureManager.subnet m st name vnet ap nsg).1, .ok r) := by
  cases hl : List.lookup (vnet.name, name) st.subnets with
  | some v =>
    have e := subnet_hit m st name vnet ap nsg v hl
    rw [e] at h
    simp only [Except.ok.injEq] at h
    subst h
    rw [e]
    exact ⟨Nat.le_succ _, e⟩
  | none =>
    cases hf : pyFalsyStrOpt ap with
    | true =>
      exfalso
      unfold AzureManager.subnet at h
      rw [hl] at h
      simp [hf] at h
    | false =>
      unfold AzureManager.subnet at h ⊢
      rw [hl] at h ⊢
      simp only [hf, Bool.false_eq_true, if_false,
        AzureManager.subnets_create_or_update, List.lookup, beq_self_eq_true] at h ⊢
      simp only [Except.ok.injEq] at h
      subst h
      exact ⟨Nat.le_refl _, rfl⟩

/-- public_ip on a lookup hit returns the found address. -/
theorem public_ip_hit (m : AzureManagerState) (st : AzState) (name : String)
    (dns_name : Option String) (r : PublicIPAddress)
    (h : List.lookup name st.public_ips = some r) :
    AzureManager.public_ip m st name dns_name = (st, .ok r) := by
  unfold AzureManager.public_ip
  simp only [h]

/-- A successful public_ip call performs at most one create request and a
repeat of the call is a lookup hit returning the same address. -/
theorem public_ip_twice (m : AzureManagerState) (st : AzState) (name : String)
    (dns_name : Option String) (r : PublicIPAddress)
    (h : (AzureManager.public_ip m st name dns_name).2 = .ok r) :
    (AzureManager.public_ip m st name dns_name).1.createCalls ≤ st.createCalls + 1
    ∧ AzureManager.public_ip m (AzureManager.public_ip m st name dns_name).1 name dns_name
      = ((AzureManager.public_ip m st name dns_name).1, .ok r) := by
  cases hl : List.lookup name st.public_ips with
  | some v =>
    have e := public_ip_hit m st name dns_name v hl
    rw [e] at h
    simp only [Except.ok.injEq] at h
    subst h
    rw [e]
    exact ⟨Nat.le_succ _, e⟩
  | none =>
    unfold AzureManager.public_ip at h ⊢
    simp only [hl, AzureManager.public_ips_create_or_update, List.lookup,
      beq_self_eq_true] at h ⊢
    simp only [Except.ok.injEq] at h
    subst h
    exact ⟨Nat.le_refl _, rfl⟩

/-- network_interface on a lookup hit returns the found interface. -/
theorem network_interface_hit (m : AzureManagerState) (st : AzState) (name : String)
    (sub : Subnet) (nsg : Option NetworkSecurityGroup) (pub : Option PublicIPAddress)
    (r : NetworkInterface) (h : List.lookup name st.nics = some r) :
    AzureManager.network_interface m st name sub nsg pub = (st, .ok r) := by
  unfold AzureManager.network_interface
  rw [h]

/-- A successful network_interface call performs at most one create
request and a repeat of the call is a lookup hit returning the same
interface. -/
theorem network_interface_twice (m : AzureManagerState) (st : AzState) (name : String)
    (sub : Subnet) (nsg : Option NetworkSecurityGroup) (pub : Option PublicIPAddress)
    (r : NetworkInterface)
    (h : (AzureManager.network_interface m st name sub nsg pub).2 = .ok r) :
    (AzureManager.network_interface m st name sub nsg pub).1.createCalls ≤ st.createCalls + 1
    ∧ AzureManager.network_interface m
        (AzureManager.network_interface m st name sub nsg pub).1 name sub nsg pub
      = ((AzureManager.network_interface m st name sub nsg pub).1, .ok r) := by
  cases hl : List.lookup name st.nics with
  | some v =>
    have e := network_interface_hit m st name sub nsg pub v hl
    rw [e] at h
    simp only [Except.ok.injEq] at h
    subst h
    rw [e]
    exact ⟨Nat.le_succ _, e⟩
  | none =>
    unfold AzureManager.network_interface at h ⊢
    rw [hl] at h ⊢
    simp only [AzureManager.nics_create_or_update, List.lookup, beq_self_eq_true] at h ⊢
    simp only [Except.ok.injEq] at h
    subst h
    exact ⟨Nat.le_refl _, rfl⟩

/-! ## Claim C1 -/

/-- Claim C1: every get-or-create method (virtual machine, network
security group, virtual network, subnet, public IP, network interface)
returns the looked-up resource with the provider state untouched when the
lookup succeeds, and a successful call performs at most one create request
while the repeated call is a no-op lookup hit returning the same
resource. -/
theorem C1_get_or_create_idempotent :
    (∀ (m : AzureManagerState) (st : AzState) (name : String)
        (nic : Option NetworkInterface) (image : Option String) (size : String)
        (user password : Option String) (spot : Bool) (mp : Rat) (dg : Nat)
        (ssh : Option String) (r : VirtualMachine),
        List.lookup name st.vms = some r →
        AzureManager.virtual_machine m st name nic image size user password spot mp dg ssh
          = (st, .ok r))
  ∧ (∀ (m : AzureManagerState) (st : AzState) (name : String)
        (nic : Option NetworkInterface) (image : Option String) (size : String)
        (user password : Option String) (spot : Bool) (mp : Rat) (dg : Nat)
        (ssh : Option String) (r : VirtualMachine),
        (AzureManager.virtual_machine m st name nic image size user password
            spot mp dg ssh).2 = .ok r →
        (AzureManager.virtual_machine m st name nic image size user password
            spot mp dg ssh).1.createCalls ≤ st.createCalls + 1
        ∧ AzureManager.virtual_machine m
            (AzureManager.virtual_machine m st name nic image size user password
              spot mp dg ssh).1 name nic image size user password spot mp dg ssh
          = ((AzureManager.virtual_machine m st name nic image size user password
                spot mp dg ssh).1, .ok r))
  ∧ (∀ (m : AzureManagerState) (st : AzState) (name : String) (r : NetworkSecurityGroup),
        List.lookup name st.nsgs = some r →
        AzureManager.network_security_group m st name = (st, .ok r))
  ∧ (∀ (m : AzureManagerState) (st : AzState) (name : String) (r : NetworkSecurityGroup),
        (AzureManager.network_security_group m st name).2 = .ok r →
        (AzureManager.network_security_group m st name).1.createCalls ≤ st.createCalls + 1
        ∧ AzureManager.network_security_group m
            (AzureManager.network_security_group m st name).1 name
          = ((AzureManager.network_security_group m st name).1, .ok r))
  ∧ (∀ (m : AzureManagerState) (st : AzState) (name : String)
        (aps : Option (List String)) (r : VirtualNetwork),
        List.lookup name st.vnets = some r →
        AzureManager.virtual_network m st name aps = (st, .ok r))
  ∧ (∀ (m : AzureManagerState) (st : AzState) (name : String)
        (aps : Option (List String)) (r : VirtualNetwork),
        (AzureManager.virtual_network m st name aps).2 = .ok r →
        (AzureManager.virtual_network m st name aps).1.createCalls ≤ st.createCalls + 1
        ∧ AzureManager.virtual_network m (AzureManager.virtual_network m st name aps).1
            name aps
          = ((AzureManager.virtual_network m st name aps).1, .ok r))
  ∧ (∀ (m : AzureManagerState) (st : AzState) (name : String) (vnet : VirtualNetwork)
        (ap : Option String) (nsg : Option NetworkSecurityGroup) (r : Subnet),
        List.lookup (vnet.name, name) st.subnets = some r →
        AzureManager.subnet m st name vnet ap nsg = (st, .ok r))
  ∧ (∀ (m : AzureManagerState) (st : AzState) (name : String) (vnet : VirtualNetwork)
        (ap : Option String) (nsg : Option NetworkSecurityGroup) (r : Subnet),
        (AzureManager.subnet m st name vnet ap nsg).2 = .ok r →
        (AzureManager.subnet m st name vnet ap nsg).1.createCalls ≤ st.createCalls + 1
        ∧ AzureManager.subnet m (AzureManager.subnet m st name vnet ap nsg).1 name vnet ap nsg
          = ((AzureManager.subnet m st name vnet ap nsg).1, .ok r))
  ∧ (∀ (m : AzureManagerState) (st : AzState) (name : String)
        (dns_name : Option String) (r : PublicIPAddress),
        List.lookup name st.public_ips = some r →
        AzureManager.public_ip m st name dns_name = (st, .ok r))
  ∧ (∀ (m : AzureManagerState) (st : AzState) (name : String)
        (dns_name : Option String) (r : PublicIPAddress),
        (AzureManager.public_ip m st name dns_name).2 = .ok r →
        (AzureManager.public_ip m st name dns_name).1.createCalls ≤ st.createCalls + 1
        ∧ AzureManager.public_ip m (AzureManager.public_ip m st name dns_name).1 name dns_name
          = ((AzureManager.public_ip m st name dns_name).1, .ok r))
  ∧ (∀ (m : AzureManagerState) (st : AzState) (name : String) (sub : Subnet)
        (nsg : Option NetworkSecurityGroup) (pub : Option PublicIPAddress)
        (r : NetworkInterface),
        List.lookup name st.nics = some r →
        AzureManager.network_interface m st name sub nsg pub = (st, .ok r))
  ∧ (∀ (m : AzureManagerState) (st : AzState) (name : String) (sub : Subnet)
        (nsg : Option NetworkSecurityGroup) (pub : Option PublicIPAddress)
        (r : NetworkInterface),
        (AzureManager.network_interface m st name sub nsg pub).2 = .ok r →
        (AzureManager.network_interface m st name sub nsg pub).1.createCalls
            ≤ st.createCalls + 1
        ∧ AzureManager.network_interface m
            (AzureManager.network_interface m st name sub nsg pub).1 name sub nsg pub
          = ((AzureManager.network_interface m st name sub nsg pub).1, .ok r)) :=
  ⟨virtual_machine_hit, virtual_machine_twice,
   network_security_group_hit, network_security_group_twice,
   virtual_network_hit, virtual_network_twice,
   subnet_hit, subnet_twice,
   public_ip_hit, public_ip_twice,
   network_interface_hit, network_interface_twice⟩

/-- Concrete manager object for the C1 witness. -/
def exMgr : AzureManagerState := ⟨"rsg", false, "westeu", "plan", "westeu"⟩

/-- Concrete resources for the C1 witness. -/
def exNsg : NetworkSecurityGroup := ⟨"nsg1", "westeu"⟩

def exVnet : VirtualNetwork := ⟨"vnet1", "westeu", ["10.0.0.0/16"]⟩

def exSubnet : Subnet := ⟨"sub1", "10.0.0.0/24", none⟩

def exIp : PublicIPAddress := ⟨"ip1", "westeu", "Static", "Standard", some "ip1"⟩

def exNic : NetworkInterface := ⟨"nic1", "westeu", exSubnet, true, none, none⟩

def exVm : VirtualMachine :=
  ⟨"vm1", ⟨"westeu", "vm1", none, none, "Standard_B2s", 32, none, [exNic],
    [("persistent", "0"), ("development", "1")], "plan", true, true, some 2, []⟩⟩

/-- Concrete provider state for the C1 witness with one resource of each
type present. -/
def exSt : AzState :=
  ⟨[("vm1", exVm)], [("nsg1", exNsg)], [("vnet1", exVnet)],
   [(("vnet1", "sub1"), exSubnet)], [("ip1", exIp)], [("nic1", exNic)], 0, 0⟩

/-- Claim C1 witness: every get-or-create method instantiated at a
concrete state where the lookup hits, both the single-call and the
repeated-call conclusions. -/
theorem C1_get_or_create_idempotent_witness :
    (AzureManager.virtual_machine exMgr exSt "vm1" none none "Standard_B2s"
        none none true 2 32 none = (exSt, .ok exVm))
    ∧ ((AzureManager.virtual_machine exMgr exSt "vm1" none none "Standard_B2s"
          none none true 2 32 none).1.createCalls ≤ exSt.createCalls + 1
       ∧ AzureManager.virtual_machine exMgr
           (AzureManager.virtual_machine exMgr exSt "vm1" none none "Standard_B2s"
             none none true 2 32 none).1 "vm1" none none "Standard_B2s"
           none none true 2 32 none
         = ((AzureManager.virtual_machine exMgr exSt "vm1" none none "Standard_B2s"
               none none true 2 32 none).1, .ok exVm))
    ∧ (AzureManager.network_security_group exMgr exSt "nsg1" = (exSt, .ok exNsg))
    ∧ ((AzureManager.network_security_group exMgr exSt "nsg1").1.createCalls
          ≤ exSt.createCalls + 1
       ∧ AzureManager.network_security_group exMgr
           (AzureManager.network_security_group exMgr exSt "nsg1").1 "nsg1"
         = ((AzureManager.network_security_group exMgr exSt "nsg1").1, .ok exNsg))
    ∧ (AzureManager.virtual_network exMgr exSt "vnet1" none = (exSt, .ok exVnet))
    ∧ ((AzureManager.virtual_network exMgr exSt "vnet1" none).1.createCalls
          ≤ exSt.createCalls + 1
       ∧ AzureManager.virtual_network exMgr
           (AzureManager.virtual_network exMgr exSt "vnet1" none).1 "vnet1" none
         = ((AzureManager.virtual_network exMgr exSt "vnet1" none).1, .ok exVnet))
    ∧ (AzureManager.subnet exMgr exSt "sub1" exVnet none none = (exSt, .ok exSubnet))
    ∧ ((AzureManager.subnet exMgr exSt "sub1" exVnet none none).1.createCalls
          ≤ exSt.createCalls + 1
       ∧ AzureManager.subnet exMgr
           (AzureManager.subnet exMgr exSt "sub1" exVnet none none).1 "sub1" exVnet none none
         = ((AzureManager.subnet exMgr exSt "sub1" exVnet none none).1, .ok exSubnet))
    ∧ (AzureManager.public_ip exMgr exSt "ip1" none = (exSt, .ok exIp))
    ∧ ((AzureManager.public_ip exMgr exSt "ip1" none).1.createCalls
          ≤ exSt.createCalls + 1
       ∧ AzureManager.public_ip exMgr
           (AzureManager.public_ip exMgr exSt "ip1" none).1 "ip1" none
         = ((AzureManager.public_ip exMgr exSt "ip1" none).1, .ok exIp))
    ∧ (AzureManager.network_interface exMgr exSt "nic1" exSubnet none none
        = (exSt, .ok exNic))
    ∧ ((AzureManager.network_interface exMgr exSt "nic1" exSubnet none none).1.createCalls
          ≤ exSt.createCalls + 1
       ∧ AzureManager.network_interface exMgr
           (AzureManager.network_interface exMgr exSt "nic1" exSubnet none none).1
           "nic1" exSubnet none none
         = ((AzureManager.network_interface exMgr exSt "nic1" exSubnet none none).1,
            .ok exNic)) := by
  obtain ⟨h1, h2, h3, h4, h5, h6, h7, h8, h9, h10, h11, h12⟩ :=
    C1_get_or_create_idempotent
  exact ⟨h1 exMgr exSt "vm1" none none "Standard_B2s" none none true 2 32 none exVm rfl,
         h2 exMgr exSt "vm1" none none "Standard_B2s" none none true 2 32 none exVm rfl,
         h3 exMgr exSt "nsg1" exNsg rfl,
         h4 exMgr exSt "nsg1" exNsg rfl,
         h5 exMgr exSt "vnet1" none exVnet rfl,
         h6 exMgr exSt "vnet1" none exVnet rfl,
         h7 exMgr exSt "sub1" exVnet none none exSubnet rfl,
         h8 exMgr exSt "sub1" exVnet none none exSubnet rfl,
         h9 exMgr exSt "ip1" none exIp rfl,
         h10 exMgr exSt "ip1" none exIp rfl,
         h11 exMgr exSt "nic1" exSubnet none none exNic rfl,
         h12 exMgr exSt "nic1" exSubnet none none exNic rfl⟩

/-! ## Claim C10 -/

theorem pyIn_self_append (a b : String) : pyIn a (a ++ b) = true := by
  unfold pyIn
  rw [String.data_append]
  exact hasSubstr_self_append _ _

/-- Lines in which the entry header pattern does not occur pass through
the removal loop unchanged, with the loop state still unstarted. -/
theorem removeSshAux_no_hit (e : String) (L M : List String)
    (h : ∀ l ∈ L, pyIn ("Host " ++ e) l = false) :
    AzureVM.removeSshAux e false false (L ++ M)
      = L ++ AzureVM.removeSshAux e false false M := by
  induction L with
  | nil => simp
  | cons a L ih =>
    have ha : pyIn ("Host " ++ e) a = false := h a (List.mem_cons_self a L)
    have hrest : ∀ l ∈ L, pyIn ("Host " ++ e) l = false :=
      fun l hl => h l (List.mem_cons_of_mem a hl)
    simp only [List.cons_append, AzureVM.removeSshAux, ha]
    simp [ih hrest]

/-- The removal loop erases a freshly appended entry block except its
leading blank line, provided the HostName line carries no Host header
pattern of its own. -/
theorem removeSshAux_entry (e f : String)
    (hf : pyIn "Host " (("     HostName " ++ f) ++ "\n") = false) :
    AzureVM.removeSshAux e false false (AzureVM.entryLines e f) = ["\n"] := by
  have h0 : pyIn ("Host " ++ e) "\n" = false :=
    pyIn_of_not_pyIn_left "Host " e "\n" (by decide)
  have h1 : pyIn ("Host " ++ e) (("Host " ++ e) ++ "\n") = true :=
    pyIn_self_append ("Host " ++ e) "\n"
  have hb1 : pyIn "Host " "     StrictHostKeyChecking no\n" = false := by decide
  have hb3 : pyIn "Host " "     ForwardX11 yes\n" = false := by decide
  have hb4 : pyIn "Host " "     Port 20022\n" = false := by decide
  have he1 : pyIn ("Host " ++ e) "     StrictHostKeyChecking no\n" = false :=
    pyIn_of_not_pyIn_left "Host " e _ hb1
  have he2 : pyIn ("Host " ++ e) (("     HostName " ++ f) ++ "\n") = false :=
    pyIn_of_not_pyIn_left "Host " e _ hf
  have he3 : pyIn ("Host " ++ e) "     ForwardX11 yes\n" = false :=
    pyIn_of_not_pyIn_left "Host " e _ hb3
  have he4 : pyIn ("Host " ++ e) "     Port 20022\n" = false :=
    pyIn_of_not_pyIn_left "Host " e _ hb4
  simp [AzureVM.entryLines, AzureVM.removeSshAux,
    h0, h1, hb1, hb3, hb4, he1, he2, he3, he4, hf]

/-- Claim C10 counterexample: adding the same SSH config entry twice does
not reproduce the single-add file content; the second run leaves an extra
blank line, because removal keeps the blank line the appended entry text
starts with. -/
theorem C10_counterexample :
    AzureVM.add_ssh_config_entry "cloud-gpu" "vm.example.com"
        (AzureVM.add_ssh_config_entry "cloud-gpu" "vm.example.com" [])
      ≠ AzureVM.add_ssh_config_entry "cloud-gpu" "vm.example.com" [] := by
  decide

/-- Claim C10 amended: on a config whose lines nowhere contain the entry
header pattern, a second add yields exactly the single-add content of the
config extended by one extra blank line; removal deletes the previously
appended block except that leading blank line. -/
theorem C10_add_twice_extra_blank_line (e f : String) (L : List String)
    (hL : ∀ l ∈ L, pyIn ("Host " ++ e) l = false)
    (hf : pyIn "Host " (("     HostName " ++ f) ++ "\n") = false) :
    AzureVM.add_ssh_config_entry e f (AzureVM.add_ssh_config_entry e f L)
      = AzureVM.add_ssh_config_entry e f (L ++ ["\n"]) := by
  have hL2 : ∀ l ∈ L ++ ["\n"], pyIn ("Host " ++ e) l = false := by
    intro l hl
    rcases List.mem_append.mp hl with h | h
    · exact hL l h
    · rcases List.mem_singleton.mp h with rfl
      exact pyIn_of_not_pyIn_left "Host " e "\n" (by decide)
  unfold AzureVM.add_ssh_config_entry AzureVM.remove_ssh_config_entry
  have hid : AzureVM.removeSshAux e false false L = L := by
    have h := removeSshAux_no_hit e L [] hL
    simpa [AzureVM.removeSshAux] using h
  have hid2 : AzureVM.removeSshAux e false false (L ++ ["\n"]) = L ++ ["\n"] := by
    have h := removeSshAux_no_hit e (L ++ ["\n"]) [] hL2
    simpa [AzureVM.removeSshAux] using h
  rw [hid, removeSshAux_no_hit e L (AzureVM.entryLines e f) hL,
    removeSshAux_entry e f hf, hid2]

/-- Claim C10 amended witness at a concrete entry, FQDN and config. -/
theorem C10_add_twice_extra_blank_line_witness :
    AzureVM.add_ssh_config_entry "cloud-gpu" "vm.example.com"
        (AzureVM.add_ssh_config_entry "cloud-gpu" "vm.example.com" ["# ssh config\n"])
      = AzureVM.add_ssh_config_entry "cloud-gpu" "vm.example.com"
          (["# ssh config\n"] ++ ["\n"]) :=
  C10_add_twice_extra_blank_line "cloud-gpu" "vm.example.com" ["# ssh config\n"]
    (by decide) (by decide)
